import Mathlib

/-!
Verification development for the VoiceAgent conversational form-completion
engine (`src/backend/v1`), a shallow embedding of the deterministic
graph-walker (`services/flow_engine.py`), the tool-calling driver
(`services/agent_engine.py`), the SQLAlchemy data model (`models.py`) and the
manual completion route (`routes/public.py::complete_session`).

Modelling conventions:
* The database is a record of three tables (messages, answers, submissions),
  each a list in insertion order; `db.add` is list append, SQLAlchemy
  `scalar_one_or_none` over a session-keyed `select` is `List.find?`.
* Python strings are `String`; `str.strip` is `py_strip`, `str.lower` is
  `py_lower` and string `<` is `char_list_lt`, all defined over the string's
  character list so that concrete runs reduce inside the kernel (they agree
  with Python on the ASCII inputs exercised here).
* `re.match` is an opaque parameter `re_match : String → String → Bool`
  (pattern, text), since the regex engine is a stdlib collaborator; every
  theorem is universally quantified over it.
* Python `float(...)` is `pyFloat`, modelling finite decimal literals
  (sign, digits, optional fraction, optional exponent); `inf`/`nan` literals
  and digit underscores are outside the modelled fragment, which no claim
  exercises.  JSON numbers appearing in validation rules carry both their
  rational value and their literal rendering (`JsonNum`), mirroring
  `float(min_value)` versus the f-string interpolation of `min_value`.
* JSON truthiness: a nullable JSON dict such as `condition_json` is
  `Option Condition` where `none` stands for `null` or `{}` (both falsy in
  `if not condition`), and `some c` with both keys absent stands for a truthy
  dict carrying neither `equals` nor `contains`.
* The LLM run inside `process_agent_message` is nondeterministic; a turn is
  parametrised by the list of `save_answer` tool invocations the model issued
  and by `final_output : Option String` (`none` models all three attempts
  failing, which triggers the deterministic fallback).  The HTTP/auth layers
  and the instruction/history strings fed to the model mutate nothing and are
  not modelled.
-/

namespace VoiceAgent

/-! ## String primitives

Python's `str.strip`, `str.lower`, string `<` and `in` are modelled over the
character list of a `String` (the ASCII fragment, which is all the engines'
fixed messages and comparisons use; Python additionally handles non-ASCII
whitespace/case, outside the modelled fragment). -/

/-- ASCII lowercasing of one character (Python `str.lower` on ASCII). -/
def char_lower (c : Char) : Char :=
  if 'A' ≤ c ∧ c ≤ 'Z' then Char.ofNat (c.toNat + 32) else c

/-- Python whitespace for `str.strip` (ASCII fragment). -/
def py_is_space (c : Char) : Bool :=
  c == ' ' || c == '\t' || c == '\n' || c == '\r' || c == '\x0b' || c == '\x0c'

/-- Python `str.strip()`. -/
def py_strip (s : String) : String :=
  ⟨((s.data.dropWhile py_is_space).reverse.dropWhile py_is_space).reverse⟩

/-- Python `str.lower()`. -/
def py_lower (s : String) : String :=
  ⟨s.data.map char_lower⟩

/-- Code-point lexicographic order on character lists (Python string `<`). -/
def char_list_lt : List Char → List Char → Bool
  | [], [] => false
  | [], _ :: _ => true
  | _ :: _, [] => false
  | a :: as, b :: bs => a < b || (a == b && char_list_lt as bs)

/-! ## Data model (src/backend/v1/models.py) -/

/-- A JSON number as stored in `validation_json`: its numeric value (as used
by `float(...)` coercion) and its literal textual rendering (as used by
f-string interpolation in rejection messages). -/
structure JsonNum where
  val : Rat
  txt : String
deriving Repr, DecidableEq

/-- The `validation_json` dict of a `FormGraphNode` (keys read by
`flow_engine._validate_answer`). -/
structure ValidationRule where
  type : Option String
  min : Option JsonNum
  max : Option JsonNum
  regex : Option String
  enum : Option (List String)
deriving Repr, DecidableEq

/-- `FormGraphNode` (models.py lines 91-100), restricted to the columns the
flow engine reads. -/
structure FormGraphNode where
  id : String
  key : String
  prompt : String
  required : Bool
  validation_json : ValidationRule
deriving Repr, DecidableEq

/-- The `condition_json` dict of an edge: optional `equals` / `contains`
predicates over the just-given answer. -/
structure Condition where
  equals : Option String
  contains : Option String
deriving Repr, DecidableEq

/-- `FormGraphEdge` (models.py lines 103-110). -/
structure FormGraphEdge where
  form_version_id : String
  from_node_id : String
  to_node_id : Option String
  condition_json : Option Condition
deriving Repr, DecidableEq

/-- One entry of `Form.fields_schema` (agentic path): `name` is mandatory,
`required` defaults to `True` via `f.get("required", True)` (the default is
applied when constructing the value), `description = none` models an absent
key (`f.get("description", ...)`). -/
structure FieldSpec where
  name : String
  required : Bool
  description : Option String
deriving Repr, DecidableEq

/-- `Form` (models.py lines 61-76), restricted to the columns the two engines
read. -/
structure Form where
  id : String
  persona : String
  fields_schema : List FieldSpec
deriving Repr, DecidableEq

/-- `RespondentSession` (models.py lines 113-123), restricted to the columns
the engines read and write. -/
structure RespondentSession where
  id : String
  form_id : String
  form_version_id : Option String
  status : String
  current_node_id : Option String
deriving Repr, DecidableEq

/-- A row of the `messages` table (models.py lines 126-132). -/
structure MessageRec where
  session_id : String
  role : String
  content : String
deriving Repr, DecidableEq

/-- A row of the `answers` table (models.py lines 135-142); note the table
carries no uniqueness constraint on (session_id, field_key). -/
structure AnswerRec where
  session_id : String
  form_id : String
  field_key : String
  value_text : String
deriving Repr, DecidableEq

/-- A row of the `submissions` table (models.py lines 145-152). -/
structure SubmissionRec where
  form_id : String
  session_id : String
  status : String
deriving Repr, DecidableEq

/-- The persisted state the engines touch: three tables in insertion order. -/
structure DB where
  messages : List MessageRec
  answers : List AnswerRec
  submissions : List SubmissionRec
deriving Repr, DecidableEq

/-- `db.add(Message(...))`. -/
def add_message (db : DB) (sid role content : String) : DB :=
  { db with messages := db.messages ++ [⟨sid, role, content⟩] }

/-- `db.add(Answer(...))`. -/
def add_answer (db : DB) (sid fid fkey val : String) : DB :=
  { db with answers := db.answers ++ [⟨sid, fid, fkey, val⟩] }

/-- `db.add(Submission(..., status="completed"))`. -/
def add_submission (db : DB) (fid sid : String) : DB :=
  { db with submissions := db.submissions ++ [⟨fid, sid, "completed"⟩] }

/-- `select(Submission).where(Submission.session_id == sid)` followed by
`scalar_one_or_none()`. -/
def find_submission (db : DB) (sid : String) : Option SubmissionRec :=
  db.submissions.find? (fun r => r.session_id == sid)

/-- The select-then-insert pattern shared verbatim by all four completion
sites (flow_engine.py 137-141, agent_engine.py 107-109 and 278-280,
public.py 177-183): add a Submission only when none exists for the session. -/
def add_submission_if_missing (db : DB) (fid sid : String) : DB :=
  if (find_submission db sid).isSome then db else add_submission db fid sid

/-! ## Validator (flow_engine.py `_validate_answer`) -/

/-- Python truthiness of a nullable string (`None` and `""` are falsy). -/
def truthy_str : Option String → Bool
  | none => false
  | some s => s ≠ ""

/-- Value of a list of decimal digit characters. -/
def digits_val (cs : List Char) : Nat :=
  cs.foldl (fun n c => 10 * n + (c.toNat - 48)) 0

/-- Python `float(s)` on an already-stripped string, for finite decimal
literals: optional sign, digits with optional fraction, optional exponent.
`none` models `ValueError` (in particular `pyFloat "" = none`). -/
def pyFloat (s : String) : Option Rat :=
  let cs := s.data
  let sign : Int := match cs with
    | '-' :: _ => -1
    | _ => 1
  let cs1 : List Char := match cs with
    | '-' :: r => r
    | '+' :: r => r
    | r => r
  let ip := cs1.takeWhile Char.isDigit
  let cs2 := cs1.dropWhile Char.isDigit
  let fp : List Char := match cs2 with
    | '.' :: r => r.takeWhile Char.isDigit
    | _ => []
  let cs3 : List Char := match cs2 with
    | '.' :: r => r.dropWhile Char.isDigit
    | r => r
  if ip.isEmpty && fp.isEmpty then none
  else
    let mant : Rat := (sign * (digits_val (ip ++ fp) : Int) : Rat) / ((10 : Rat) ^ fp.length)
    match cs3 with
    | [] => some mant
    | e :: r =>
      if e == 'e' || e == 'E' then
        let esign : Int := match r with
          | '-' :: _ => -1
          | _ => 1
        let r1 : List Char := match r with
          | '-' :: r2 => r2
          | '+' :: r2 => r2
          | r2 => r2
        let ed := r1.takeWhile Char.isDigit
        let rest := r1.dropWhile Char.isDigit
        if ed.isEmpty || !rest.isEmpty then none
        else some (mant * (10 : Rat) ^ (esign * (digits_val ed : Int)))
      else none

/-- The sequential min/max bound checks of the `number` branch
(flow_engine.py 37-42); `none` means both bounds passed. -/
def check_bounds (value : Rat) (rules : ValidationRule) : Option String :=
  match rules.min with
  | some m =>
    if value < m.val then some ("Value should be at least " ++ m.txt ++ ".")
    else
      match rules.max with
      | some mx => if mx.val < value then some ("Value should be at most " ++ mx.txt ++ ".") else none
      | none => none
  | none =>
    match rules.max with
    | some mx => if mx.val < value then some ("Value should be at most " ++ mx.txt ++ ".") else none
    | none => none

/-- The enum membership check (flow_engine.py 48-50): skipped when `enum` is
absent or empty (falsy), otherwise a case-insensitive membership test. -/
def check_enum (rules : ValidationRule) (normalized : String) : Bool × Option String :=
  match rules.enum with
  | none => (true, none)
  | some vs =>
    if vs.isEmpty then (true, none)
    else if (vs.map py_lower).contains (py_lower normalized) then (true, none)
    else (false, some ("Please choose one of: " ++ String.intercalate ", " vs ++ "."))

/-- The regex check (flow_engine.py 44-46) followed by the enum check:
skipped when the pattern is falsy or the normalized text is empty. -/
def check_regex_enum (re_match : String → String → Bool) (rules : ValidationRule)
    (normalized : String) : Bool × Option String :=
  if truthy_str rules.regex && normalized ≠ "" && !re_match (rules.regex.getD "") normalized then
    (false, some "The answer format is not valid. Please try again.")
  else check_enum rules normalized

/-- `flow_engine._validate_answer` (lines 24-52): required check, then the
`number` parse/bounds branch, then regex, then enum; first failure wins. -/
def _validate_answer (re_match : String → String → Bool) (node : FormGraphNode)
    (text : String) : Bool × Option String :=
  let rules := node.validation_json
  let normalized := py_strip text
  if node.required && normalized == "" then
    (false, some "This question is required. Please provide an answer.")
  else if rules.type == some "number" then
    match pyFloat normalized with
    | none => (false, some "Please provide a valid number.")
    | some value =>
      match check_bounds value rules with
      | some msg => (false, some msg)
      | none => check_regex_enum re_match rules normalized
  else check_regex_enum re_match rules normalized

/-! ## Edge matching and traversal (flow_engine.py `_edge_matches`, `_next_node`) -/

/-- Whether `needle` occurs as a contiguous sublist of `hay`
(Python `in` on strings). -/
def char_list_in (needle : List Char) : List Char → Bool
  | [] => needle.isEmpty
  | c :: rest => needle.isPrefixOf (c :: rest) || char_list_in needle rest

/-- `flow_engine._edge_matches` (lines 55-64): a falsy condition always
matches; an `equals` key compares stripped lowercase text; otherwise a
`contains` key is a stripped lowercase substring test; a truthy condition
dict with neither key never matches. -/
def _edge_matches (condition : Option Condition) (answer : String) : Bool :=
  match condition with
  | none => true
  | some c =>
    match c.equals with
    | some e => py_lower (py_strip answer) == py_lower (py_strip e)
    | none =>
      match c.contains with
      | some sub => char_list_in (py_lower (py_strip sub)).data (py_lower (py_strip answer)).data
      | none => false

/-- `db.get(FormGraphNode, node_id)`: primary-key lookup, `None` on a null or
unknown id. -/
def get_node (nodes : List FormGraphNode) : Option String → Option FormGraphNode
  | none => none
  | some i => nodes.find? (fun n => n.id == i)

/-- The loop body of `_next_node` (lines 75-80): first matching edge wins;
a falsy `to_node_id` is terminal, otherwise the target node is fetched
(`None` when the fetch misses). -/
def next_node_loop (nodes : List FormGraphNode) (answer : String) :
    List FormGraphEdge → Option FormGraphNode
  | [] => none
  | e :: rest =>
    if _edge_matches e.condition_json answer then
      if truthy_str e.to_node_id then get_node nodes e.to_node_id
      else none
    else next_node_loop nodes answer rest

/-- `flow_engine._next_node` (lines 67-80): select the edges of the session's
form version leaving `from_node_id` (in their stored order) and walk them. -/
def _next_node (nodes : List FormGraphNode) (edges : List FormGraphEdge)
    (form_version_id : Option String) (from_node_id : String) (answer : String) :
    Option FormGraphNode :=
  next_node_loop nodes answer
    (edges.filter (fun e =>
      (some e.form_version_id == form_version_id) && (e.from_node_id == from_node_id)))

/-! ## Flow engine turn (flow_engine.py `process_user_message`) -/

/-- `flow_engine._personalize` (lines 17-21). -/
def _personalize (prompt persona : String) : String :=
  let p := py_strip persona
  if p == "" then prompt else prompt ++ "\n\nTone: " ++ p ++ "."

/-- `form.persona if form else ""` after `db.get(Form, form_id)`. -/
def persona_of (forms : List Form) (fid : String) : String :=
  match forms.find? (fun f => f.id == fid) with
  | some f => f.persona
  | none => ""

/-- The `FlowResult` dict returned by `process_user_message`. -/
structure FlowResult where
  accepted : Bool
  state : String
  assistant_message : String
  current_node_key : Option String
deriving Repr, DecidableEq

/-- One flow-engine turn's outcome: the returned result plus the database and
session as left by the turn. -/
structure FlowStep where
  result : FlowResult
  db : DB
  session : RespondentSession
deriving Repr, DecidableEq

/-- `flow_engine.process_user_message` (lines 93-163): inactive guard,
current-node fetch, user message append, validation, answer persistence,
edge traversal, completion or advancement. -/
def process_user_message (re_match : String → String → Bool) (forms : List Form)
    (nodes : List FormGraphNode) (edges : List FormGraphEdge)
    (db : DB) (rs : RespondentSession) (user_text : String) : FlowStep :=
  if rs.status ≠ "active" then
    ⟨⟨false, rs.status, "This session is no longer active.", none⟩, db, rs⟩
  else
    match get_node nodes rs.current_node_id with
    | none => ⟨⟨false, "error", "Session state is invalid.", none⟩, db, rs⟩
    | some current_node =>
      let db1 := add_message db rs.id "user" user_text
      let vr := _validate_answer re_match current_node user_text
      if vr.1 = false then
        let msg := vr.2.getD "Please try again."
        ⟨⟨false, "active", msg, some current_node.key⟩,
          add_message db1 rs.id "assistant" msg, rs⟩
      else
        let db2 := add_answer db1 rs.id rs.form_id current_node.key (py_strip user_text)
        match _next_node nodes edges rs.form_version_id current_node.id user_text with
        | none =>
          let rs2 := { rs with status := "completed", current_node_id := none }
          let db3 := add_submission_if_missing db2 rs.form_id rs.id
          ⟨⟨true, "completed", "Thank you. Your submission is complete.", none⟩,
            add_message db3 rs.id "assistant" "Thank you. Your submission is complete.", rs2⟩
        | some nn =>
          let rs2 := { rs with current_node_id := some nn.id }
          let msg := _personalize nn.prompt (persona_of forms rs.form_id)
          ⟨⟨true, "active", msg, some nn.key⟩,
            add_message db2 rs.id "assistant" msg, rs2⟩

/-! ## Agent engine (agent_engine.py) -/

/-- Python dict update `d[k] = v`: an existing key keeps its position and gets
the new value, a new key is appended. -/
def upsert_assoc (l : List (String × String)) (k v : String) : List (String × String) :=
  if l.any (fun p => p.1 == k) then
    l.map (fun p => if p.1 == k then (k, v) else p)
  else l ++ [(k, v)]

/-- `agent_engine._load_collected_answers` (lines 193-195): fold the session's
answer rows into a dict (later rows win for a duplicated key). -/
def _load_collected_answers (db : DB) (session_id : String) : List (String × String) :=
  (db.answers.filter (fun a => a.session_id == session_id)).foldl
    (fun acc a => upsert_assoc acc a.field_key a.value_text) []

/-- The select-then-update-or-insert of `save_answer` (lines 79-97): update
the existing row's `value_text`, or insert a fresh row.  The source updates
the single row returned by `scalar_one_or_none` (which would raise on
duplicate rows, producible only by driving one session through both engines,
which the product never does); the model updates every matching row, which
coincides on every state with at most one row per (session, field_key). -/
def upsert_answer (db : DB) (sid fid fkey val : String) : DB :=
  match db.answers.find? (fun a => a.session_id == sid && a.field_key == fkey) with
  | some _ =>
    { db with answers := db.answers.map (fun a =>
        if a.session_id == sid && a.field_key == fkey then { a with value_text := val } else a) }
  | none => add_answer db sid fid fkey val

/-- Insertion into a sorted list of strings (code-point order, as Python
`sorted`). -/
def insert_sorted (s : String) : List String → List String
  | [] => [s]
  | x :: xs => if char_list_lt s.data x.data then s :: x :: xs else x :: insert_sorted s xs

/-- Python `sorted(set(l))` over strings: sorted unique values. -/
def sort_dedup (l : List String) : List String :=
  (l.foldr insert_sorted []).dedup

/-- The `FormSessionContext` dataclass (lines 46-51): the turn's database,
the session object, and the in-memory `collected_answers` dict the tool keeps
in sync with its writes. -/
structure AgentCtx where
  db : DB
  session : RespondentSession
  collected_answers : List (String × String)
deriving Repr, DecidableEq

/-- `agent_engine.save_answer` (lines 58-113): reject a field name outside a
non-empty schema (state untouched), otherwise upsert the stripped value,
mirror it into the context dict, and if no required field is missing mark the
session completed and insert the Submission if none exists.  Returns the tool
message and the updated context. -/
def save_answer (form : Form) (ctx : AgentCtx) (field_name value : String) :
    String × AgentCtx :=
  let valid_fields := form.fields_schema.map (fun f => f.name)
  if !valid_fields.isEmpty && !valid_fields.contains field_name then
    ("Error: \x27" ++ field_name ++ "\x27 is not a valid field. Valid: " ++
      String.intercalate ", " (sort_dedup valid_fields), ctx)
  else
    let db1 := upsert_answer ctx.db ctx.session.id form.id field_name (py_strip value)
    let collected := upsert_assoc ctx.collected_answers field_name (py_strip value)
    let required := (form.fields_schema.filter (fun f => f.required)).map (fun f => f.name)
    let missing_required := required.filter (fun f => !(collected.map Prod.fst).contains f)
    if missing_required.isEmpty then
      let session := { ctx.session with status := "completed", current_node_id := none }
      let db2 := add_submission_if_missing db1 form.id ctx.session.id
      ("All required fields collected. Thank the user warmly and say goodbye.",
        ⟨db2, session, collected⟩)
    else
      ("Saved. Still need: " ++ String.intercalate ", " missing_required ++
        ". Ask the user for the next one only.", ⟨db1, ctx.session, collected⟩)

/-- The `AgentResult` dataclass (lines 182-186). -/
structure AgentResult where
  assistant_message : String
  state : String
  accepted : Bool
deriving Repr, DecidableEq

/-- One agent-engine turn's outcome: the returned result plus the database
and session as left by the turn. -/
structure AgentStep where
  result : AgentResult
  db : DB
  session : RespondentSession
deriving Repr, DecidableEq

/-- `agent_engine.process_agent_message` (lines 213-294): inactive guard,
form fetch, user message append, the model run (abstracted by the list of
`save_answer` calls it issued and its `final_output`, `none` when every
attempt failed), the deterministic fallback derived from fresh persisted
state, and the assistant message append.  `accepted` is `true` on every path
past the two guards. -/
def process_agent_message (form? : Option Form) (db : DB) (rs : RespondentSession)
    (user_text : String) (calls : List (String × String))
    (final_output : Option String) : AgentStep :=
  if rs.status ≠ "active" then
    ⟨⟨"This session is no longer active.", rs.status, false⟩, db, rs⟩
  else
    match form? with
    | none => ⟨⟨"Form not found.", "error", false⟩, db, rs⟩
    | some form =>
      let collected := _load_collected_answers db rs.id
      let db1 := add_message db rs.id "user" user_text
      let ctx := calls.foldl (fun c kv => (save_answer form c kv.1 kv.2).2)
        (⟨db1, rs, collected⟩ : AgentCtx)
      match final_output with
      | some out =>
        let msg := if out == "" then "Could you repeat that?" else py_strip out
        ⟨⟨msg, ctx.session.status, true⟩, add_message ctx.db rs.id "assistant" msg, ctx.session⟩
      | none =>
        if ctx.session.status == "completed" then
          let msg := "Thank you! Your responses have been recorded."
          ⟨⟨msg, ctx.session.status, true⟩, add_message ctx.db rs.id "assistant" msg, ctx.session⟩
        else
          let fresh := _load_collected_answers ctx.db rs.id
          let required := (form.fields_schema.filter (fun f => f.required)).map (fun f => f.name)
          let missing := required.filter (fun f => !(fresh.map Prod.fst).contains f)
          if missing.isEmpty then
            let session := { ctx.session with status := "completed" }
            let db2 := add_submission_if_missing ctx.db form.id rs.id
            let msg := "Thank you! Your responses have been recorded."
            ⟨⟨msg, session.status, true⟩, add_message db2 rs.id "assistant" msg, session⟩
          else if collected.length < fresh.length then
            let next_f := missing.headD ""
            let desc := match form.fields_schema.find? (fun f => f.name == next_f) with
              | some f => f.description.getD next_f
              | none => next_f
            let msg := "Got it. Could you tell me: " ++ desc ++ "?"
            ⟨⟨msg, ctx.session.status, true⟩, add_message ctx.db rs.id "assistant" msg, ctx.session⟩
          else
            let msg := "I\x27m having trouble processing that. Please try again."
            ⟨⟨msg, ctx.session.status, true⟩, add_message ctx.db rs.id "assistant" msg, ctx.session⟩

/-! ## Manual completion route (public.py `complete_session`, lines 159-187) -/

/-- The database/session mutation of the manual completion route (the token
and 404 checks raise before any mutation and are transport concerns): mark
completed, clear the position, insert the Submission if none exists. -/
def complete_session (db : DB) (rs : RespondentSession) : DB × RespondentSession :=
  let rs2 := { rs with status := "completed", current_node_id := none }
  (add_submission_if_missing db rs.form_id rs.id, rs2)

/-! ## Turn sequences over both strategies -/

/-- One turn's input: either a flow-engine turn or an agent-engine turn (with
the model run abstracted as in `process_agent_message`). -/
inductive TurnInput where
  | flow (user_text : String)
  | agent (form? : Option Form) (user_text : String)
      (calls : List (String × String)) (final_output : Option String)

/-- Apply one turn under the strategy it names. -/
def run_turn (re_match : String → String → Bool) (forms : List Form)
    (nodes : List FormGraphNode) (edges : List FormGraphEdge) :
    DB × RespondentSession → TurnInput → DB × RespondentSession
  | (db, rs), .flow t =>
    let st := process_user_message re_match forms nodes edges db rs t
    (st.db, st.session)
  | (db, rs), .agent f? t calls fo =>
    let st := process_agent_message f? db rs t calls fo
    (st.db, st.session)

/-- Run a sequence of turns. -/
def run_turns (re_match : String → String → Bool) (forms : List Form)
    (nodes : List FormGraphNode) (edges : List FormGraphEdge)
    (init : DB × RespondentSession) (ts : List TurnInput) : DB × RespondentSession :=
  ts.foldl (run_turn re_match forms nodes edges) init

/-- The keys of the session's persisted answer rows, in row order. -/
def answer_keys (db : DB) (sid : String) : List String :=
  (db.answers.filter (fun a => a.session_id == sid)).map (fun a => a.field_key)

/-- The number of persisted Submission rows for a session. -/
def sub_count (db : DB) (sid : String) : Nat :=
  (db.submissions.filter (fun r => r.session_id == sid)).length

/-- The first value among the session's answer rows for a key (what a unique
(session, field_key) row would hold). -/
def answer_value (db : DB) (sid k : String) : Option String :=
  (db.answers.find? (fun a => a.session_id == sid && a.field_key == k)).map
    (fun a => a.value_text)

/-! ## Derived characterizations and concrete fixtures -/

/-- Derived characterization (for the amended C2): an empty optional input
passes `_validate_answer` exactly when the rule carries no `number` type and
its enum (if truthy) contains the empty string. -/
def accepts_empty_optional (rules : ValidationRule) : Bool :=
  (rules.type != some "number") &&
    (match rules.enum with
     | none => true
     | some vs => vs.isEmpty || (vs.map py_lower).contains "")

/-- Spec-side selection of the firing edge: among the current node's outgoing
edges of the session's form version, in stored order, the first whose
condition matches the answer. -/
def matched_edge (edges : List FormGraphEdge) (fv : Option String) (nid answer : String) :
    Option FormGraphEdge :=
  (edges.filter (fun e => (some e.form_version_id == fv) && (e.from_node_id == nid))).find?
    (fun e => _edge_matches e.condition_json answer)

/-- At most one persisted Answer row per (session, field_key): the keys of the
session's answer rows are pairwise distinct. -/
def unique_keys (db : DB) (sid : String) : Prop :=
  (answer_keys db sid).Nodup

/-- A regex oracle accepting every (pattern, text) pair, used to instantiate
witnesses whose inputs never reach the regex check. -/
def re_true : String → String → Bool := fun _ _ => true

/-- The empty database. -/
def empty_db : DB := ⟨[], [], []⟩

/-- A validation rule with no constraints (`validation_json = {}`). -/
def rule_empty : ValidationRule := ⟨none, none, none, none, none⟩

/-- A rule `{"type": "number"}` with no bounds. -/
def rule_number : ValidationRule := ⟨some "number", none, none, none, none⟩

/-- An unconstrained required node. -/
def node_one : FormGraphNode := ⟨"1", "a", "Q1", true, rule_empty⟩

/-- A second unconstrained required node. -/
def node_two : FormGraphNode := ⟨"2", "b", "Q2", true, rule_empty⟩

/-- An edge from `node_one` to `node_two` with no condition. -/
def edge_advance : FormGraphEdge := ⟨"v", "1", some "2", none⟩

/-- An optional node with no constraints. -/
def node_opt : FormGraphNode := ⟨"n", "k", "p", false, rule_empty⟩

/-- An optional node with a `number`-typed rule. -/
def node_num : FormGraphNode := ⟨"n", "k", "p", false, rule_number⟩

/-- A required node keyed `a` with a self-loop edge (below). -/
def node_loop : FormGraphNode := ⟨"A", "a", "Q", true, rule_empty⟩

/-- An unconditioned self-loop edge on `node_loop`. -/
def edge_loop : FormGraphEdge := ⟨"v", "A", some "A", none⟩

/-- An active graph session positioned at `node_one`. -/
def session_active : RespondentSession := ⟨"s", "f", some "v", "active", some "1"⟩

/-- An active graph session positioned at `node_loop`. -/
def session_loop : RespondentSession := ⟨"s", "f", some "v", "active", some "A"⟩

/-- A completed session. -/
def session_done : RespondentSession := ⟨"s", "f", some "v", "completed", none⟩

/-- An active session whose current position references no existing node. -/
def session_bad : RespondentSession := ⟨"s", "f", some "v", "active", some "missing"⟩

/-- An active agentic session. -/
def session_agent : RespondentSession := ⟨"s", "f", none, "active", none⟩

/-- A form with a persona and no agentic schema. -/
def form_warm : Form := ⟨"f", "warm", []⟩

/-- A form with an empty `fields_schema`. -/
def form_no_schema : Form := ⟨"f", "", []⟩

/-- A form with two required fields. -/
def form_two_fields : Form :=
  ⟨"f", "", [⟨"full_name", true, some "your name"⟩, ⟨"email", true, none⟩]⟩

/-! ## Claim C3: inactive-session guard -/

/-- C3: for every session whose status is not `active` and every respondent
message, both strategies return `accepted = false` with the fixed
`This session is no longer active.` reply and mutate nothing: the database
(messages, answers, submissions) and the session are returned unchanged. -/
theorem C3_inactive_guard (re_match : String → String → Bool) (forms : List Form)
    (nodes : List FormGraphNode) (edges : List FormGraphEdge) (db : DB)
    (rs : RespondentSession) (user_text : String) (calls : List (String × String))
    (form? : Option Form) (final_output : Option String)
    (h : rs.status ≠ "active") :
    process_user_message re_match forms nodes edges db rs user_text =
      ⟨⟨false, rs.status, "This session is no longer active.", none⟩, db, rs⟩ ∧
    process_agent_message form? db rs user_text calls final_output =
      ⟨⟨"This session is no longer active.", rs.status, false⟩, db, rs⟩ := by
  constructor
  · unfold process_user_message
    simp [h]
  · unfold process_agent_message
    simp [h]

/-- Witness for C3 at a concrete completed session. -/
theorem C3_inactive_guard_witness :
    process_user_message re_true [] [] [] empty_db session_done "hi" =
      ⟨⟨false, "completed", "This session is no longer active.", none⟩, empty_db, session_done⟩ ∧
    process_agent_message (some form_two_fields) empty_db session_done "hi" [] none =
      ⟨⟨"This session is no longer active.", "completed", false⟩, empty_db, session_done⟩ :=
  C3_inactive_guard re_true [] [] [] empty_db session_done "hi" [] (some form_two_fields) none
    (by decide)

/-! ## Claim C1: no partial persistence on validation rejection -/

/-- C1: for every active graph session whose current node resolves and every
input the node's validation rule rejects, `process_user_message` returns
`accepted = false` with the rejection reason as the reply, persists no Answer
row (and no Submission), and leaves the session's status and position
unchanged; only the two transcript messages are appended. -/
theorem C1_rejection_no_partial_persistence (re_match : String → String → Bool)
    (forms : List Form) (nodes : List FormGraphNode) (edges : List FormGraphEdge)
    (db : DB) (rs : RespondentSession) (user_text : String)
    (node : FormGraphNode) (reason : String)
    (hact : rs.status = "active")
    (hnode : get_node nodes rs.current_node_id = some node)
    (hval : _validate_answer re_match node user_text = (false, some reason)) :
    (process_user_message re_match forms nodes edges db rs user_text).result.accepted = false ∧
    (process_user_message re_match forms nodes edges db rs user_text).result.assistant_message
      = reason ∧
    (process_user_message re_match forms nodes edges db rs user_text).db.answers = db.answers ∧
    (process_user_message re_match forms nodes edges db rs user_text).db.submissions
      = db.submissions ∧
    (process_user_message re_match forms nodes edges db rs user_text).session = rs := by
  unfold process_user_message
  simp [hact, hnode, hval, add_message]

/-- Witness for C1: an empty answer to a required unconstrained node is
rejected with the `required` reason and persists nothing. -/
theorem C1_rejection_no_partial_persistence_witness :
    (process_user_message re_true [] [node_one] [edge_advance] empty_db session_active
        " ").result.accepted = false ∧
    (process_user_message re_true [] [node_one] [edge_advance] empty_db session_active
        " ").result.assistant_message
      = "This question is required. Please provide an answer." ∧
    (process_user_message re_true [] [node_one] [edge_advance] empty_db session_active
        " ").db.answers = empty_db.answers ∧
    (process_user_message re_true [] [node_one] [edge_advance] empty_db session_active
        " ").db.submissions = empty_db.submissions ∧
    (process_user_message re_true [] [node_one] [edge_advance] empty_db session_active
        " ").session = session_active :=
  C1_rejection_no_partial_persistence re_true [] [node_one] [edge_advance] empty_db
    session_active " " node_one "This question is required. Please provide an answer."
    (by decide) (by decide) (by decide)

/-! ## Claim C6: missing current node -/

/-- C6 counterexample: with an active session whose `current_node_id`
references no existing node, `process_user_message` does return the generic
`Session state is invalid.` reply with result state `error`, but the
persisted session is returned unchanged — its status stays `active` and is
never moved to `error`, contrary to the claim. -/
theorem C6_counterexample :
    process_user_message re_true [] [] [] empty_db session_bad "hi" =
      ⟨⟨false, "error", "Session state is invalid.", none⟩, empty_db, session_bad⟩ ∧
    session_bad.status ≠ "error" := by
  constructor
  · decide
  · decide

/-- C6 amended: when an active session's current position references a node
that does not exist, `process_user_message` returns the generic
`Session state is invalid.` reply with `accepted = false` and result state
`error`, but mutates nothing: the database and the session (in particular its
`status`, which remains `active`) are returned unchanged. -/
theorem C6_missing_node_reply_only (re_match : String → String → Bool)
    (forms : List Form) (nodes : List FormGraphNode) (edges : List FormGraphEdge)
    (db : DB) (rs : RespondentSession) (user_text : String)
    (hact : rs.status = "active")
    (hmiss : get_node nodes rs.current_node_id = none) :
    process_user_message re_match forms nodes edges db rs user_text =
      ⟨⟨false, "error", "Session state is invalid.", none⟩, db, rs⟩ := by
  unfold process_user_message
  simp [hact, hmiss]

/-- Witness for the amended C6. -/
theorem C6_missing_node_reply_only_witness :
    process_user_message re_true [] [] [] empty_db session_bad "hi" =
      ⟨⟨false, "error", "Session state is invalid.", none⟩, empty_db, session_bad⟩ :=
  C6_missing_node_reply_only re_true [] [] [] empty_db session_bad "hi" (by decide) (by decide)

/-! ## Claim C2: empty optional input -/

/-- C2 counterexample: the claim says an empty input to a non-required field
always passes, for every rule including `number`-typed ones.  But on the rule
`{"type": "number"}` with `required = False`, the empty string reaches
`float("")`, which raises, so the validator rejects with
`Please provide a valid number.` instead of accepting. -/
theorem C2_counterexample :
    _validate_answer re_true node_num "" = (false, some "Please provide a valid number.") := by
  decide

/-- C2 amended: for a non-required field and an input whose stripped text is
empty, only the regex check is skipped unconditionally; the validator accepts
exactly when the rule carries no `number` type (the numeric parse of `""`
fails) and its enum, when truthy, contains the empty string. -/
theorem C2_empty_optional_input (re_match : String → String → Bool)
    (node : FormGraphNode) (text : String)
    (hreq : node.required = false) (hempty : py_strip text = "") :
    (_validate_answer re_match node text).1 = accepts_empty_optional node.validation_json := by
  have hregex : ∀ rules, check_regex_enum re_match rules "" = check_enum rules "" := by
    intro rules
    unfold check_regex_enum
    simp
  unfold _validate_answer accepts_empty_optional
  rw [hempty, hreq]
  simp only [Bool.false_and, Bool.if_false_left]
  by_cases htype : node.validation_json.type = some "number"
  · simp [htype, pyFloat]
  · have hbeq : (node.validation_json.type == some "number") = false := by
      simp [htype]
    simp only [hbeq, Bool.false_eq_true, if_false, bne, Bool.not_false, Bool.true_and]
    rw [hregex]
    unfold check_enum
    cases henum : node.validation_json.enum with
    | none => rfl
    | some vs =>
      cases hvs : vs.isEmpty with
      | true => simp [hvs]
      | false =>
        simp only [hvs, Bool.false_eq_true, if_false, Bool.false_or]
        rw [show py_lower "" = "" from rfl]
        cases hc : (vs.map py_lower).contains "" with
        | true => simp
        | false => simp

/-- Witness for the amended C2: an unconstrained optional node accepts the
empty input, matching `accepts_empty_optional`. -/
theorem C2_empty_optional_input_witness :
    (_validate_answer re_true node_opt "").1 = accepts_empty_optional node_opt.validation_json :=
  C2_empty_optional_input re_true node_opt "" (by decide) (by decide)

/-! ## Claim C4: edge selection and advancement -/

/-- The edge-walking loop of `_next_node` selects the first edge (in list
order) whose condition matches, then resolves its target. -/
theorem next_node_loop_eq_find (nodes : List FormGraphNode) (answer : String)
    (l : List FormGraphEdge) :
    next_node_loop nodes answer l =
      match l.find? (fun e => _edge_matches e.condition_json answer) with
      | none => none
      | some e => if truthy_str e.to_node_id then get_node nodes e.to_node_id else none := by
  induction l with
  | nil => rfl
  | cons e rest ih =>
    cases h : _edge_matches e.condition_json answer with
    | true => simp [next_node_loop, List.find?_cons, h]
    | false => simp [next_node_loop, List.find?_cons, h, ih]

/-- C4: in the graph path, after an accepted answer the outgoing edges of the
current node (restricted to the session's form version, in stored order) are
scanned and the first whose condition matches fires; an absent condition
always matches; if no edge matches, or the matched edge's target id is null
(falsy), the session becomes `completed` with `current_node_id` cleared and
the fixed completion message is the reply; otherwise the session advances to
the target node and that node's persona-styled prompt is the reply. -/
theorem C4_edge_selection (re_match : String → String → Bool) (forms : List Form)
    (nodes : List FormGraphNode) (edges : List FormGraphEdge) (db : DB)
    (rs : RespondentSession) (user_text : String) (node : FormGraphNode)
    (st : FlowStep)
    (hact : rs.status = "active")
    (hnode : get_node nodes rs.current_node_id = some node)
    (hval : (_validate_answer re_match node user_text).1 = true)
    (hst : st = process_user_message re_match forms nodes edges db rs user_text) :
    (∀ a, _edge_matches none a = true) ∧
    (matched_edge edges rs.form_version_id node.id user_text = none →
      st.session.status = "completed" ∧ st.session.current_node_id = none ∧
      st.result.assistant_message = "Thank you. Your submission is complete." ∧
      st.result.accepted = true) ∧
    (∀ e, matched_edge edges rs.form_version_id node.id user_text = some e →
      truthy_str e.to_node_id = false →
      st.session.status = "completed" ∧ st.session.current_node_id = none ∧
      st.result.assistant_message = "Thank you. Your submission is complete." ∧
      st.result.accepted = true) ∧
    (∀ e nn, matched_edge edges rs.form_version_id node.id user_text = some e →
      truthy_str e.to_node_id = true → get_node nodes e.to_node_id = some nn →
      st.session.status = "active" ∧ st.session.current_node_id = some nn.id ∧
      st.result.assistant_message = _personalize nn.prompt (persona_of forms rs.form_id) ∧
      st.result.accepted = true) := by
  subst hst
  refine ⟨fun a => rfl, ?_, ?_, ?_⟩
  · intro hmatch
    unfold matched_edge at hmatch
    unfold process_user_message _next_node
    simp [next_node_loop_eq_find, hact, hnode, hval, hmatch]
  · intro e hmatch htruthy
    unfold matched_edge at hmatch
    unfold process_user_message _next_node
    simp [next_node_loop_eq_find, hact, hnode, hval, hmatch, htruthy]
  · intro e nn hmatch htruthy hget
    unfold matched_edge at hmatch
    unfold process_user_message _next_node
    simp [next_node_loop_eq_find, hact, hnode, hval, hmatch, htruthy, hget]

/-- Witness for C4: on the two-node graph, an accepted answer at `node_one`
fires the unconditioned edge and advances to `node_two`, whose persona-styled
prompt is the reply. -/
theorem C4_edge_selection_witness :
    (process_user_message re_true [form_warm] [node_one, node_two] [edge_advance] empty_db
        session_active "John").session.status = "active" ∧
    (process_user_message re_true [form_warm] [node_one, node_two] [edge_advance] empty_db
        session_active "John").session.current_node_id = some node_two.id ∧
    (process_user_message re_true [form_warm] [node_one, node_two] [edge_advance] empty_db
        session_active "John").result.assistant_message
      = _personalize node_two.prompt (persona_of [form_warm] session_active.form_id) ∧
    (process_user_message re_true [form_warm] [node_one, node_two] [edge_advance] empty_db
        session_active "John").result.accepted = true :=
  (C4_edge_selection re_true [form_warm] [node_one, node_two] [edge_advance] empty_db
      session_active "John" node_one
      (process_user_message re_true [form_warm] [node_one, node_two] [edge_advance] empty_db
        session_active "John")
      (by decide) (by decide) (by decide) rfl).2.2.2
    edge_advance node_two (by decide) (by decide) (by decide)

/-! ## Claim C7: save_answer field guard and upsert -/

/-- Auxiliary: `find?` over an append whose first part contains no match. -/
theorem find_append_of_none {α : Type} (p : α → Bool) (l l2 : List α)
    (h : l.find? p = none) : (l ++ l2).find? p = l2.find? p := by
  induction l with
  | nil => rfl
  | cons a as ih =>
    have hpa : p a = false := by
      have := List.find?_eq_none.mp h a (by simp)
      simpa using this
    have has : as.find? p = none := by
      rw [List.find?_eq_none] at h ⊢
      intro x hx
      exact h x (by simp [hx])
    simpa [hpa] using ih has

/-- Auxiliary: updating the value of every (session, key)-matching row
commutes with looking the row up. -/
theorem find_map_upd (sid k v : String) (l : List AnswerRec) :
    ((l.map (fun a =>
        if a.session_id == sid && a.field_key == k then { a with value_text := v } else a)).find?
      (fun a => a.session_id == sid && a.field_key == k))
      = (l.find? (fun a => a.session_id == sid && a.field_key == k)).map
          (fun a => { a with value_text := v }) := by
  induction l with
  | nil => rfl
  | cons a as ih =>
    cases hpa : (a.session_id == sid && a.field_key == k) with
    | true =>
      have hupd : (if a.session_id == sid && a.field_key == k then
          ({ a with value_text := v } : AnswerRec) else a) = { a with value_text := v } := by
        simp [hpa]
      rw [List.map_cons, hupd, List.find?_cons_of_pos, List.find?_cons_of_pos]
      · rfl
      · exact hpa
      · simpa using hpa
    | false =>
      have hupd : (if a.session_id == sid && a.field_key == k then
          ({ a with value_text := v } : AnswerRec) else a) = a := by
        simp [hpa]
      rw [List.map_cons, hupd, List.find?_cons_of_neg, List.find?_cons_of_neg, ih]
      · simp [hpa]
      · simp [hpa]

/-- After an upsert, the first (session, key) row holds the upserted value. -/
theorem answer_value_upsert (db : DB) (sid fid k v : String) :
    answer_value (upsert_answer db sid fid k v) sid k = some v := by
  unfold upsert_answer
  cases hf : db.answers.find? (fun a => a.session_id == sid && a.field_key == k) with
  | some a0 =>
    unfold answer_value
    simp only [hf]
    rw [find_map_upd, hf]
    rfl
  | none =>
    unfold answer_value add_answer
    simp only [hf]
    rw [find_append_of_none _ _ _ hf]
    simp [List.find?]

/-- A Submission insert leaves the first (session, key) answer row alone. -/
theorem answer_value_sub_if (db : DB) (fid sid sid2 k : String) :
    answer_value (add_submission_if_missing db fid sid) sid2 k = answer_value db sid2 k := by
  unfold add_submission_if_missing add_submission answer_value
  split <;> rfl

/-- C7 counterexample: the claim says every `save_answer` call whose
`field_name` is outside the form's field set is rejected without mutation.
But the guard is `if valid_fields and field_name not in valid_fields`, so
with an empty `fields_schema` the guard is skipped: the unknown field `x` is
not in the (empty) field set, yet a fresh Answer row is written (and, the
required set being empty, the session is even completed). -/
theorem C7_counterexample :
    (form_no_schema.fields_schema.map (fun f => f.name)).contains "x" = false ∧
    (save_answer form_no_schema ⟨empty_db, session_agent, []⟩ "x" "1").2.db.answers =
      [⟨"s", "f", "x", "1"⟩] ∧
    (save_answer form_no_schema ⟨empty_db, session_agent, []⟩ "x" "1").2.session.status =
      "completed" := by
  refine ⟨by decide, by decide, by decide⟩

/-- C7 amended: when the form's field set is non-empty, a `save_answer` call
naming a field outside it returns the error string with the context (database,
session, collected answers) completely unchanged, and a call naming a field
inside it upserts: afterwards the session's row for that field holds the
stripped value (last write wins).  With an empty field set the guard is
skipped entirely. -/
theorem C7_save_answer_guard (form : Form) (ctx : AgentCtx) (field_name value : String)
    (hne : (form.fields_schema.map (fun f => f.name)).isEmpty = false) :
    ((form.fields_schema.map (fun f => f.name)).contains field_name = false →
      (save_answer form ctx field_name value).2 = ctx) ∧
    ((form.fields_schema.map (fun f => f.name)).contains field_name = true →
      answer_value (save_answer form ctx field_name value).2.db ctx.session.id field_name
        = some (py_strip value)) := by
  constructor
  · intro hc
    unfold save_answer
    simp only [hne, hc]
    rfl
  · intro hc
    unfold save_answer
    simp only [hne, hc, Bool.not_true, Bool.and_false, Bool.false_eq_true, if_false,
      Bool.not_false]
    split
    · simpa [answer_value_sub_if] using
        answer_value_upsert ctx.db ctx.session.id form.id field_name (py_strip value)
    · simpa using
        answer_value_upsert ctx.db ctx.session.id form.id field_name (py_strip value)

/-- Witness for the amended C7: on a two-field schema, the unknown name
`bogus` is rejected without mutation, and saving `email` stores the stripped
value. -/
theorem C7_save_answer_guard_witness :
    (save_answer form_two_fields ⟨empty_db, session_agent, []⟩ "bogus" "1").2
        = (⟨empty_db, session_agent, []⟩ : AgentCtx) ∧
    answer_value (save_answer form_two_fields ⟨empty_db, session_agent, []⟩ "email"
        " a@b ").2.db session_agent.id "email" = some (py_strip " a@b ") :=
  ⟨(C7_save_answer_guard form_two_fields ⟨empty_db, session_agent, []⟩ "bogus" "1"
      (by decide)).1 (by decide),
   (C7_save_answer_guard form_two_fields ⟨empty_db, session_agent, []⟩ "email" " a@b "
      (by decide)).2 (by decide)⟩

/-! ## Claim C8: transcript message counts -/

/-- A Submission insert touches no messages. -/
theorem messages_add_sub_if (db : DB) (fid sid : String) :
    (add_submission_if_missing db fid sid).messages = db.messages := by
  unfold add_submission_if_missing add_submission
  split <;> rfl

/-- An answer upsert touches no messages. -/
theorem messages_upsert (db : DB) (a b c d : String) :
    (upsert_answer db a b c d).messages = db.messages := by
  unfold upsert_answer add_answer
  split <;> rfl

/-- A `save_answer` call touches no messages. -/
theorem messages_save_answer (form : Form) (ctx : AgentCtx) (f v : String) :
    ((save_answer form ctx f v).2).db.messages = ctx.db.messages := by
  unfold save_answer
  dsimp only
  split
  · rfl
  · split
    · simp [messages_add_sub_if, messages_upsert]
    · simp [messages_upsert]

/-- A whole sequence of `save_answer` calls touches no messages. -/
theorem messages_calls_fold (form : Form) (calls : List (String × String)) (ctx : AgentCtx) :
    (calls.foldl (fun c kv => (save_answer form c kv.1 kv.2).2) ctx).db.messages
      = ctx.db.messages := by
  induction calls generalizing ctx with
  | nil => rfl
  | cons kv rest ih => rw [List.foldl_cons, ih, messages_save_answer]

/-- C8 counterexample: a turn sent to a completed session is rejected by the
inactive-session guard and appends no messages at all, so after N = 1 turn
the persisted message count is 0, not 2N = 2. -/
theorem C8_counterexample :
    (process_user_message re_true [] [] [] empty_db session_done "hi").db.messages.length
      = 0 := by
  decide

/-- C8 amended: a turn appends exactly one user and one assistant message
(count + 2) exactly when it passes the strategy's guards — for the flow
engine an active session whose current node resolves (whether or not
validation accepts), for the agent engine an active session whose form
resolves; turns bounced by the inactive-session, missing-node or missing-form
guards append no messages at all. -/
theorem C8_two_messages_per_processed_turn (re_match : String → String → Bool)
    (forms : List Form) (nodes : List FormGraphNode) (edges : List FormGraphEdge)
    (db : DB) (rs : RespondentSession) (user_text : String) (form? : Option Form)
    (calls : List (String × String)) (final_output : Option String) :
    (∀ node, rs.status = "active" → get_node nodes rs.current_node_id = some node →
      (process_user_message re_match forms nodes edges db rs user_text).db.messages.length
        = db.messages.length + 2) ∧
    (rs.status ≠ "active" →
      (process_user_message re_match forms nodes edges db rs user_text).db.messages
        = db.messages) ∧
    (rs.status = "active" → get_node nodes rs.current_node_id = none →
      (process_user_message re_match forms nodes edges db rs user_text).db.messages
        = db.messages) ∧
    (∀ form, rs.status = "active" → form? = some form →
      (process_agent_message form? db rs user_text calls final_output).db.messages.length
        = db.messages.length + 2) ∧
    (rs.status ≠ "active" ∨ form? = none →
      (process_agent_message form? db rs user_text calls final_output).db.messages
        = db.messages) := by
  refine ⟨?_, ?_, ?_, ?_, ?_⟩
  · intro node hact hnode
    unfold process_user_message
    cases hv : (_validate_answer re_match node user_text).1 with
    | false =>
      simp [hact, hnode, hv, add_message]
    | true =>
      cases hnn : _next_node nodes edges rs.form_version_id node.id user_text with
      | none =>
        simp [hact, hnode, hv, hnn, add_message, add_answer, messages_add_sub_if]
      | some nn =>
        simp [hact, hnode, hv, hnn, add_message, add_answer]
  · intro h
    unfold process_user_message
    simp [h]
  · intro hact hnode
    unfold process_user_message
    simp [hact, hnode]
  · intro form hact hform
    subst hform
    unfold process_agent_message
    rw [if_neg (by simp [hact])]
    dsimp only
    cases final_output with
    | some out =>
      simp [add_message, messages_calls_fold]
    | none =>
      dsimp only
      split
      · simp [add_message, messages_calls_fold, messages_add_sub_if]
      · split
        · simp [add_message, messages_calls_fold, messages_add_sub_if]
        · split
          · simp [add_message, messages_calls_fold, messages_add_sub_if]
          · simp [add_message, messages_calls_fold, messages_add_sub_if]
  · intro h
    unfold process_agent_message
    rcases h with h | h
    · simp [h]
    · subst h
      by_cases hact : rs.status = "active"
      · simp [hact]
      · simp [hact]

/-- Witness for the amended C8: one processed flow turn (validation rejected)
and one processed agent turn each append exactly two messages. -/
theorem C8_two_messages_per_processed_turn_witness :
    (process_user_message re_true [] [node_one, node_two] [edge_advance] empty_db
        session_active " ").db.messages.length = empty_db.messages.length + 2 ∧
    (process_agent_message (some form_two_fields) empty_db session_agent "hi" []
        (some "ok")).db.messages.length = empty_db.messages.length + 2 :=
  ⟨(C8_two_messages_per_processed_turn re_true [] [node_one, node_two] [edge_advance] empty_db
      session_active " " (some form_two_fields) [] (some "ok")).1 node_one
      (by decide) (by decide),
   (C8_two_messages_per_processed_turn re_true [] [node_one, node_two] [edge_advance] empty_db
      session_agent "hi" (some form_two_fields) [] (some "ok")).2.2.2.1 form_two_fields
      (by decide) rfl⟩

/-! ## Claim C5: monotonic answer keys -/

/-- A message append leaves the answer keys of every session unchanged. -/
theorem answer_keys_add_message (db : DB) (a b c sid : String) :
    answer_keys (add_message db a b c) sid = answer_keys db sid := rfl

/-- A Submission insert leaves the answer keys of every session unchanged. -/
theorem answer_keys_add_sub_if (db : DB) (fid s sid : String) :
    answer_keys (add_submission_if_missing db fid s) sid = answer_keys db sid := by
  unfold add_submission_if_missing add_submission answer_keys
  split <;> rfl

/-- An answer insert appends the new key to its own session's key list and
leaves other sessions' key lists unchanged. -/
theorem answer_keys_add_answer (db : DB) (s fid k v sid : String) :
    answer_keys (add_answer db s fid k v) sid
      = answer_keys db sid ++ (if (s == sid) = true then [k] else []) := by
  unfold add_answer answer_keys
  by_cases hs : (s == sid) = true <;>
    simp [List.filter_append, List.filter, hs]

/-- Updating the values of (session, key)-matching rows changes no key list. -/
theorem keys_filter_map_upd (s k v sid : String) (l : List AnswerRec) :
    ((l.map (fun a =>
        if a.session_id == s && a.field_key == k then { a with value_text := v } else a)).filter
      (fun a => a.session_id == sid)).map (fun a => a.field_key)
      = (l.filter (fun a => a.session_id == sid)).map (fun a => a.field_key) := by
  induction l with
  | nil => rfl
  | cons a as ih =>
    have h1 : (if a.session_id == s && a.field_key == k then
        ({ a with value_text := v } : AnswerRec) else a).session_id = a.session_id := by
      split <;> rfl
    have h2 : (if a.session_id == s && a.field_key == k then
        ({ a with value_text := v } : AnswerRec) else a).field_key = a.field_key := by
      split <;> rfl
    rw [List.map_cons, List.filter_cons, List.filter_cons, h1]
    by_cases hs : (a.session_id == sid) = true
    · simp only [hs, if_true, List.map_cons, h2, ih]
    · simp only [hs, Bool.false_eq_true, if_false, ih]

/-- An upsert either leaves a session's key list unchanged (update, or a row
for another session) or appends the upserted key. -/
theorem answer_keys_upsert (db : DB) (s fid k v sid : String) :
    answer_keys (upsert_answer db s fid k v) sid = answer_keys db sid ∨
    answer_keys (upsert_answer db s fid k v) sid = answer_keys db sid ++ [k] := by
  unfold upsert_answer
  cases hf : db.answers.find? (fun a => a.session_id == s && a.field_key == k) with
  | some a0 =>
    left
    unfold answer_keys
    exact keys_filter_map_upd s k v sid db.answers
  | none =>
    rw [answer_keys_add_answer]
    by_cases hs : (s == sid) = true
    · right
      rw [hs]
      rfl
    · left
      simp [hs]

/-- Key-set growth between two database states, for every session. -/
def keys_sub (db db2 : DB) : Prop :=
  ∀ sid : String, answer_keys db sid ⊆ answer_keys db2 sid

theorem keys_sub_refl (db : DB) : keys_sub db db := fun _ _ hx => hx

theorem keys_sub_trans {a b c : DB} (h1 : keys_sub a b) (h2 : keys_sub b c) :
    keys_sub a c := fun sid => (h1 sid).trans (h2 sid)

theorem keys_sub_add_message (db : DB) (a b c : String) :
    keys_sub db (add_message db a b c) := by
  intro sid
  rw [answer_keys_add_message]
  exact fun x hx => hx

theorem keys_sub_add_sub_if (db : DB) (fid s : String) :
    keys_sub db (add_submission_if_missing db fid s) := by
  intro sid
  rw [answer_keys_add_sub_if]
  exact fun x hx => hx

theorem keys_sub_add_answer (db : DB) (s fid k v : String) :
    keys_sub db (add_answer db s fid k v) := by
  intro sid
  rw [answer_keys_add_answer]
  exact List.subset_append_left _ _

theorem keys_sub_upsert (db : DB) (s fid k v : String) :
    keys_sub db (upsert_answer db s fid k v) := by
  intro sid
  rcases answer_keys_upsert db s fid k v sid with h | h <;> rw [h]
  · exact fun x hx => hx
  · exact List.subset_append_left _ _

/-- A `save_answer` call never removes an answer key. -/
theorem keys_sub_save_answer (form : Form) (ctx : AgentCtx) (f v : String) :
    keys_sub ctx.db ((save_answer form ctx f v).2).db := by
  unfold save_answer
  dsimp only
  split
  · exact keys_sub_refl _
  · split
    · exact keys_sub_trans (keys_sub_upsert _ _ _ _ _) (keys_sub_add_sub_if _ _ _)
    · exact keys_sub_upsert _ _ _ _ _

/-- A whole sequence of `save_answer` calls never removes an answer key. -/
theorem keys_sub_calls_fold (form : Form) (calls : List (String × String)) (ctx : AgentCtx) :
    keys_sub ctx.db ((calls.foldl (fun c kv => (save_answer form c kv.1 kv.2).2) ctx)).db := by
  induction calls generalizing ctx with
  | nil => exact keys_sub_refl _
  | cons kv rest ih =>
    rw [List.foldl_cons]
    exact keys_sub_trans (keys_sub_save_answer form ctx kv.1 kv.2)
      (ih ((save_answer form ctx kv.1 kv.2).2))

/-- A flow-engine turn never removes an answer key. -/
theorem keys_sub_flow (re_match : String → String → Bool) (forms : List Form)
    (nodes : List FormGraphNode) (edges : List FormGraphEdge) (db : DB)
    (rs : RespondentSession) (t : String) :
    keys_sub db (process_user_message re_match forms nodes edges db rs t).db := by
  unfold process_user_message
  dsimp only
  split
  · exact keys_sub_refl _
  · split
    · exact keys_sub_refl _
    · split
      · exact keys_sub_trans (keys_sub_add_message _ _ _ _) (keys_sub_add_message _ _ _ _)
      · split
        · exact keys_sub_trans (keys_sub_add_message _ _ _ _)
            (keys_sub_trans (keys_sub_add_answer _ _ _ _ _)
              (keys_sub_trans (keys_sub_add_sub_if _ _ _) (keys_sub_add_message _ _ _ _)))
        · exact keys_sub_trans (keys_sub_add_message _ _ _ _)
            (keys_sub_trans (keys_sub_add_answer _ _ _ _ _) (keys_sub_add_message _ _ _ _))

/-- An agent-engine turn never removes an answer key. -/
theorem keys_sub_agent (form? : Option Form) (db : DB) (rs : RespondentSession)
    (t : String) (calls : List (String × String)) (fo : Option String) :
    keys_sub db (process_agent_message form? db rs t calls fo).db := by
  unfold process_agent_message
  dsimp only
  split
  · exact keys_sub_refl _
  · split
    · exact keys_sub_refl _
    · rename_i form
      have hbase : keys_sub db ((calls.foldl (fun c kv => (save_answer form c kv.1 kv.2).2)
          (⟨add_message db rs.id "user" t, rs, _load_collected_answers db rs.id⟩ : AgentCtx))).db :=
        keys_sub_trans (keys_sub_add_message db rs.id "user" t)
          (keys_sub_calls_fold form calls
            ⟨add_message db rs.id "user" t, rs, _load_collected_answers db rs.id⟩)
      split
      · exact keys_sub_trans hbase (keys_sub_add_message _ _ _ _)
      · split
        · exact keys_sub_trans hbase (keys_sub_add_message _ _ _ _)
        · split
          · exact keys_sub_trans hbase
              (keys_sub_trans (keys_sub_add_sub_if _ _ _) (keys_sub_add_message _ _ _ _))
          · split
            · exact keys_sub_trans hbase (keys_sub_add_message _ _ _ _)
            · exact keys_sub_trans hbase (keys_sub_add_message _ _ _ _)

/-- C5: over every sequence of turns, under either strategy (in any mix), the
set of persisted answer keys of every session is non-decreasing: a turn may
add or overwrite keys but never removes one. -/
theorem C5_monotonic_answer_keys (re_match : String → String → Bool) (forms : List Form)
    (nodes : List FormGraphNode) (edges : List FormGraphEdge)
    (init : DB × RespondentSession) (ts : List TurnInput) (sid : String) :
    answer_keys init.1 sid ⊆ answer_keys (run_turns re_match forms nodes edges init ts).1 sid := by
  induction ts generalizing init with
  | nil => exact fun x hx => hx
  | cons t rest ih =>
    unfold run_turns
    rw [List.foldl_cons]
    refine List.Subset.trans ?_ (ih (run_turn re_match forms nodes edges init t))
    obtain ⟨db, rs⟩ := init
    cases t with
    | flow s => exact keys_sub_flow re_match forms nodes edges db rs s sid
    | agent f? s calls fo => exact keys_sub_agent f? db rs s calls fo sid

/-! ## Claim C9: one Answer row per (session, field_key) -/

/-- C9 counterexample: the graph path appends a fresh Answer row on every
accepted turn without checking for an existing row, and the `answers` table
has no uniqueness constraint.  On a one-node graph with an unconditioned
self-loop edge, two accepted turns persist two Answer rows with the same
(session, field_key) pair. -/
theorem C9_counterexample :
    answer_keys (run_turns re_true [] [node_loop] [edge_loop] (empty_db, session_loop)
        [TurnInput.flow "x", TurnInput.flow "y"]).1 "s" = ["a", "a"] ∧
    ¬ (answer_keys (run_turns re_true [] [node_loop] [edge_loop] (empty_db, session_loop)
        [TurnInput.flow "x", TurnInput.flow "y"]).1 "s").Nodup := by
  refine ⟨by decide, by decide⟩

/-- An upsert preserves key uniqueness for every session. -/
theorem unique_keys_upsert (db : DB) (s fid k v sid : String)
    (h : unique_keys db sid) : unique_keys (upsert_answer db s fid k v) sid := by
  unfold unique_keys at h ⊢
  unfold upsert_answer
  cases hf : db.answers.find? (fun a => a.session_id == s && a.field_key == k) with
  | some a0 =>
    unfold answer_keys
    exact (keys_filter_map_upd s k v sid db.answers) ▸ h
  | none =>
    rw [answer_keys_add_answer]
    by_cases hs : (s == sid) = true
    · rw [hs, if_pos rfl]
      rw [List.nodup_append]
      refine ⟨h, List.nodup_singleton _, ?_⟩
      intro x hx hk
      have hxk : x = k := by simpa using hk
      unfold answer_keys at hx
      rcases List.mem_map.mp hx with ⟨a, ha, hak⟩
      have hmem := List.mem_filter.mp ha
      have hnone := List.find?_eq_none.mp hf a hmem.1
      have hss : s = sid := by simpa using hs
      have h1 : (a.session_id == s) = true := by
        rw [hss]
        exact hmem.2
      have h2 : (a.field_key == k) = true := by simp [hak, hxk]
      simp [h1, h2] at hnone
    · simp only [hs, Bool.false_eq_true, if_false, List.append_nil]
      exact h

/-- A `save_answer` call preserves key uniqueness for every session. -/
theorem unique_keys_save_answer (form : Form) (ctx : AgentCtx) (f v sid : String)
    (h : unique_keys ctx.db sid) : unique_keys ((save_answer form ctx f v).2).db sid := by
  unfold save_answer
  dsimp only
  split
  · exact h
  · split
    · unfold unique_keys
      rw [answer_keys_add_sub_if]
      exact unique_keys_upsert _ _ _ _ _ _ h
    · exact unique_keys_upsert _ _ _ _ _ _ h

/-- A sequence of `save_answer` calls preserves key uniqueness. -/
theorem unique_keys_calls_fold (form : Form) (calls : List (String × String))
    (ctx : AgentCtx) (sid : String) (h : unique_keys ctx.db sid) :
    unique_keys ((calls.foldl (fun c kv => (save_answer form c kv.1 kv.2).2) ctx)).db sid := by
  induction calls generalizing ctx with
  | nil => exact h
  | cons kv rest ih =>
    rw [List.foldl_cons]
    exact ih ((save_answer form ctx kv.1 kv.2).2)
      (unique_keys_save_answer form ctx kv.1 kv.2 sid h)

/-- C9 amended: the tool-calling path maintains at most one Answer row per
(session, field_key): `save_answer` upserts, so a whole agent-engine turn
(with any sequence of tool calls and any model outcome) preserves key
uniqueness for every session.  The graph path gives no such guarantee: each
accepted turn inserts a fresh row, so revisiting a node key (e.g. via a graph
cycle) duplicates it (see the counterexample). -/
theorem C9_unique_keys_agent (form? : Option Form) (db : DB) (rs : RespondentSession)
    (t : String) (calls : List (String × String)) (fo : Option String) (sid : String)
    (h : unique_keys db sid) :
    unique_keys (process_agent_message form? db rs t calls fo).db sid := by
  unfold process_agent_message
  dsimp only
  split
  · exact h
  · split
    · exact h
    · rename_i form
      have hbase : unique_keys ((calls.foldl (fun c kv => (save_answer form c kv.1 kv.2).2)
          (⟨add_message db rs.id "user" t, rs, _load_collected_answers db rs.id⟩ : AgentCtx))).db
          sid :=
        unique_keys_calls_fold form calls
          ⟨add_message db rs.id "user" t, rs, _load_collected_answers db rs.id⟩ sid h
      split
      · exact hbase
      · split
        · exact hbase
        · split
          · unfold unique_keys
            rw [answer_keys_add_message, answer_keys_add_sub_if]
            exact hbase
          · split
            · exact hbase
            · exact hbase

/-- Witness for the amended C9: a concrete agent turn with two tool calls on
the empty database keeps keys unique. -/
theorem C9_unique_keys_agent_witness :
    unique_keys (process_agent_message (some form_two_fields) empty_db session_agent "hi"
        [("full_name", "John"), ("email", "e")] (some "ok")).db "s" :=
  C9_unique_keys_agent (some form_two_fields) empty_db session_agent "hi"
    [("full_name", "John"), ("email", "e")] (some "ok") "s" List.Pairwise.nil

/-! ## Claim C10: at most one Submission per session -/

/-- Chaining the per-operation Submission-count bound. -/
theorem max1_chain {a b c : Nat} (h1 : b ≤ max a 1) (h2 : c ≤ max b 1) : c ≤ max a 1 := by
  rcases le_max_iff.mp h2 with h | h
  · exact le_trans h h1
  · exact le_trans h (le_max_right _ _)

/-- The shared select-then-insert never pushes a session's Submission count
above `max count 1`: it inserts only when the session has no Submission. -/
theorem sub_count_le_add_sub_if (db : DB) (fid s sid : String) :
    sub_count (add_submission_if_missing db fid s) sid ≤ max (sub_count db sid) 1 := by
  unfold add_submission_if_missing
  split
  · exact le_max_left _ _
  · rename_i hnone
    unfold add_submission sub_count
    rw [List.filter_append]
    by_cases hs : (s == sid) = true
    · have hfnone : db.submissions.find? (fun r => r.session_id == s) = none := by
        cases hfind : db.submissions.find? (fun r => r.session_id == s) with
        | none => rfl
        | some r =>
          exact absurd (by simp [find_submission, hfind] : (find_submission db s).isSome = true)
            hnone
      have h0 : db.submissions.filter (fun r => r.session_id == sid) = [] := by
        rw [List.filter_eq_nil_iff]
        intro r hr
        have := List.find?_eq_none.mp hfnone r hr
        have hss : s = sid := by simpa using hs
        simpa [hss] using this
      rw [h0]
      simp [List.filter, hs]
    · simp [List.filter, hs]

/-- Messages leave Submission counts unchanged. -/
theorem sub_count_add_message (db : DB) (a b c sid : String) :
    sub_count (add_message db a b c) sid = sub_count db sid := rfl

/-- Answer inserts leave Submission counts unchanged. -/
theorem sub_count_add_answer (db : DB) (s fid k v sid : String) :
    sub_count (add_answer db s fid k v) sid = sub_count db sid := rfl

/-- Answer upserts leave Submission counts unchanged. -/
theorem sub_count_upsert (db : DB) (s fid k v sid : String) :
    sub_count (upsert_answer db s fid k v) sid = sub_count db sid := by
  unfold upsert_answer add_answer
  split <;> rfl

/-- A `save_answer` call never pushes a session's Submission count above
`max count 1`. -/
theorem sub_count_save_answer (form : Form) (ctx : AgentCtx) (f v sid : String) :
    sub_count ((save_answer form ctx f v).2).db sid ≤ max (sub_count ctx.db sid) 1 := by
  unfold save_answer
  dsimp only
  split
  · exact le_max_left _ _
  · split
    · rw [show max (sub_count ctx.db sid) 1
          = max (sub_count (upsert_answer ctx.db ctx.session.id form.id f (py_strip v)) sid) 1 by
        rw [sub_count_upsert]]
      exact sub_count_le_add_sub_if _ _ _ _
    · rw [sub_count_upsert]
      exact le_max_left _ _

/-- A sequence of `save_answer` calls never pushes a session's Submission
count above `max count 1`. -/
theorem sub_count_calls_fold (form : Form) (calls : List (String × String))
    (ctx : AgentCtx) (sid : String) :
    sub_count ((calls.foldl (fun c kv => (save_answer form c kv.1 kv.2).2) ctx)).db sid
      ≤ max (sub_count ctx.db sid) 1 := by
  induction calls generalizing ctx with
  | nil => exact le_max_left _ _
  | cons kv rest ih =>
    rw [List.foldl_cons]
    exact max1_chain (sub_count_save_answer form ctx kv.1 kv.2 sid)
      (ih ((save_answer form ctx kv.1 kv.2).2))

/-- C10: every completion path — the graph-path terminal transition inside
`process_user_message`, `save_answer` completing the last required field, the
agent fallback's fresh-read completion inside `process_agent_message`, and
the manual `complete_session` route — first checks for an existing Submission
and inserts only when none exists, so no operation pushes any session's
Submission count above `max count 1`: a session that already has its one
Submission never receives a second. -/
theorem C10_single_submission :
    (∀ (re_match : String → String → Bool) (forms : List Form)
      (nodes : List FormGraphNode) (edges : List FormGraphEdge) (db : DB)
      (rs : RespondentSession) (t sid : String),
      sub_count (process_user_message re_match forms nodes edges db rs t).db sid
        ≤ max (sub_count db sid) 1) ∧
    (∀ (form : Form) (ctx : AgentCtx) (f v sid : String),
      sub_count ((save_answer form ctx f v).2).db sid ≤ max (sub_count ctx.db sid) 1) ∧
    (∀ (form? : Option Form) (db : DB) (rs : RespondentSession) (t : String)
      (calls : List (String × String)) (fo : Option String) (sid : String),
      sub_count (process_agent_message form? db rs t calls fo).db sid
        ≤ max (sub_count db sid) 1) ∧
    (∀ (db : DB) (rs : RespondentSession) (sid : String),
      sub_count (complete_session db rs).1 sid ≤ max (sub_count db sid) 1) := by
  refine ⟨?_, sub_count_save_answer, ?_, ?_⟩
  · intro re_match forms nodes edges db rs t sid
    unfold process_user_message
    dsimp only
    split
    · exact le_max_left _ _
    · split
      · exact le_max_left _ _
      · split
        · exact le_max_left _ _
        · split
          · rw [sub_count_add_message]
            refine le_trans (sub_count_le_add_sub_if _ _ _ _) ?_
            rw [sub_count_add_answer, sub_count_add_message]
          · rw [sub_count_add_message, sub_count_add_answer, sub_count_add_message]
            exact le_max_left _ _
  · intro form? db rs t calls fo sid
    unfold process_agent_message
    dsimp only
    split
    · exact le_max_left _ _
    · split
      · exact le_max_left _ _
      · rename_i form
        have hbase : sub_count ((calls.foldl (fun c kv => (save_answer form c kv.1 kv.2).2)
            (⟨add_message db rs.id "user" t, rs, _load_collected_answers db rs.id⟩ :
              AgentCtx))).db sid ≤ max (sub_count db sid) 1 := by
          have := sub_count_calls_fold form calls
            ⟨add_message db rs.id "user" t, rs, _load_collected_answers db rs.id⟩ sid
          simpa [sub_count_add_message] using this
        split
        · rw [sub_count_add_message]
          exact hbase
        · split
          · rw [sub_count_add_message]
            exact hbase
          · split
            · rw [sub_count_add_message]
              exact max1_chain hbase (sub_count_le_add_sub_if _ _ _ _)
            · split
              · rw [sub_count_add_message]
                exact hbase
              · rw [sub_count_add_message]
                exact hbase
  · intro db rs sid
    unfold complete_session
    exact sub_count_le_add_sub_if _ _ _ _

end VoiceAgent
